import Mathlib

/-
  Shallow embedding of the simple-grafana-table plugin core:
  - src/components/Table/index.tsx   (virtualized table component)
  - src/components/ThresholdsForm.tsx (thresholds form change handler)

  JavaScript object reference identity (the `data !== prevProps.data` style
  checks) is modelled with explicit numeric identity fields (dataId, stylesId).
  JS numbers used for pixel widths are modelled as rationals.  JS strings that
  are only compared for equality stay Lean Strings; the thresholds form input,
  which is split/trimmed/parsed character by character, is modelled as a list
  of characters so that all operations are structural recursions.
-/

namespace GrafanaTable

/-- Sort direction, the SortDirectionType values ASC and DESC. -/
inductive SortDir
  | asc
  | desc
deriving DecidableEq

/-- A style rule: a pattern matched against the column name and an optional
alias used as replacement display title.  The source field is named alias,
which is a reserved word here. -/
structure ColumnStyle where
  pattern : String
  aliasName : Option String
deriving DecidableEq

/-- Modelled from the spec: a compiled user-supplied text-matching expression
(the result of the external stringToJsRegex).  testMatch is the truthiness of
title.match(regex); replaceWith title a is title.replace(regex, a). -/
structure JsRegex where
  testMatch : String → Bool
  replaceWith : String → String → String

/-- Modelled from the spec: the external pattern compiler stringToJsRegex.
Compiling a malformed pattern throws, hence the Except. -/
structure RegexEngine where
  compile : String → Except String JsRegex

/-- One column of a DataFrame: a name, an opaque config blob (numeric id) and
the column values. -/
structure Field where
  name : String
  config : Nat
  values : List String
deriving DecidableEq, Inhabited

/-- A dataset: named columns plus the row count (DataFrame.length). -/
structure DataFrame where
  fields : List Field
  length : Nat
deriving DecidableEq

/-- The component props.  dataId and stylesId model the JS reference identity
of the data and styles props; themeId models the opaque theme object. -/
structure Props where
  dataId : Nat
  data : DataFrame
  minColumnWidth : ℚ
  showHeader : Bool
  fixedHeader : Bool
  fixedColumns : Nat
  stylesId : Nat
  styles : List ColumnStyle
  width : ℚ
  height : ℚ
  themeId : Nat
deriving DecidableEq

/-- The component state: sort column, sort direction, and the (sorted) data
currently rendered. -/
structure State where
  sortBy : Option Nat
  sortDirection : Option SortDir
  data : DataFrame
deriving DecidableEq

/-- Modelled from the spec: a cell builder is chosen from the column config,
the resolved style and the theme; there is also a generic fallback builder. -/
inductive TableCellBuilder
  | builderFor (config : Nat) (style : Option ColumnStyle) (themeId : Nat)
  | simple
deriving DecidableEq, Inhabited

/-- Modelled from the spec: the external getCellBuilder selects the builder
for a column from its config, resolved style and theme. -/
def getCellBuilder (config : Nat) (style : Option ColumnStyle) (themeId : Nat) :
    TableCellBuilder :=
  TableCellBuilder.builderFor config style themeId

/-- Modelled from the spec: the generic value-to-text fallback builder. -/
def simpleCellBuilder : TableCellBuilder :=
  TableCellBuilder.simple

/-- Derived per-column render information: display title, width, builder. -/
structure ColumnRenderInfo where
  header : String
  width : ℚ
  builder : TableCellBuilder
deriving DecidableEq, Inhabited

/-- The CellMeasurerCache contents: measured size keyed by grid coordinate.
clearAll wipes the whole list. -/
abbrev MeasurerCache := List ((Nat × Nat) × ℚ)

/-- The Table component instance: current props and state plus the mutable
instance fields renderer, measurer and scrollToTop. -/
structure Table where
  props : Props
  state : State
  renderer : List ColumnRenderInfo
  measurer : MeasurerCache
  scrollToTop : Bool
deriving DecidableEq

/-- JS truthiness of an optional string (undefined and the empty string are
falsy), used for the if (s.alias) check. -/
def jsTruthyString : Option String → Bool
  | none => false
  | some a => a != ""

/-- The style-matching loop of initColumns for one column name: walk the rules
in order, compile each pattern, stop at the first rule whose regex matches the
name; when that rule has a truthy alias the title is the replacement result.
A compile failure propagates (there is no try/catch in the source). -/
def resolveStyle (engine : RegexEngine) (name : String) :
    List ColumnStyle → Except String (String × Option ColumnStyle)
  | [] => Except.ok (name, none)
  | s :: rest =>
    match engine.compile s.pattern with
    | Except.error e => Except.error e
    | Except.ok regex =>
      if regex.testMatch name then
        Except.ok
          (if jsTruthyString s.aliasName then regex.replaceWith name (s.aliasName.getD "")
           else name,
           some s)
      else
        resolveStyle engine name rest

/-- The data.fields.map body of initColumns: one ColumnRenderInfo per field,
all with the same columnWidth; a throw from pattern compilation propagates. -/
def buildColumns (engine : RegexEngine) (styles : List ColumnStyle) (themeId : Nat)
    (columnWidth : ℚ) : List Field → Except String (List ColumnRenderInfo)
  | [] => Except.ok []
  | col :: rest =>
    match resolveStyle engine col.name styles with
    | Except.error e => Except.error e
    | Except.ok rs =>
      match buildColumns engine styles themeId columnWidth rest with
      | Except.error e => Except.error e
      | Except.ok tail =>
        Except.ok
          ({ header := rs.1, width := columnWidth,
             builder := getCellBuilder col.config rs.2 themeId } :: tail)

/-- initColumns: with no fields (or a missing data/fields/styles object in the
source, which this embedding folds into the empty list) the renderer is empty;
otherwise every column gets width max(width / fieldCount, minColumnWidth). -/
def initColumns (engine : RegexEngine) (props : Props) :
    Except String (List ColumnRenderInfo) :=
  if props.data.fields.length = 0 then Except.ok []
  else
    buildColumns engine props.styles props.themeId
      (max (props.width / (props.data.fields.length : ℚ)) props.minColumnWidth)
      props.data.fields

/-- doSort: clicking the header of columnIndex.  A different (or no) current
sort column selects that column descending; a second activation flips to
ascending; a third clears the sort column (the stored direction is left as
is). -/
def doSort (columnIndex : Nat) (s : State) : State :=
  if s.sortBy != some columnIndex then
    { s with sortBy := some columnIndex, sortDirection := some SortDir.desc }
  else if s.sortDirection == some SortDir.desc then
    { s with sortDirection := some SortDir.asc }
  else
    { s with sortBy := none }

/-- Grid-to-data coordinates: row − 1 with a header shown, unchanged without;
the column passes through. -/
structure DataIndex where
  column : Nat
  row : Int
deriving DecidableEq

/-- getCellRef: converts grid coordinates to DataFrame coordinates. -/
def getCellRef (showHeader : Bool) (rowIndex columnIndex : Nat) : DataIndex :=
  let rowOffset : Int := if showHeader then -1 else 0
  { column := columnIndex, row := (rowIndex : Int) + rowOffset }

/-- onCellClick: clicks on the header row (mapped data row below zero) sort
the clicked column; clicks on data cells do nothing. -/
def onCellClick (showHeader : Bool) (rowIndex columnIndex : Nat) (s : State) : State :=
  let ref := getCellRef showHeader rowIndex columnIndex
  if ref.row < 0 then doSort ref.column s else s

/-- What a rendered header cell shows: the text and, when present, the sort
indicator with the direction it was given. -/
structure HeaderCell where
  text : String
  indicator : Option (Option SortDir)
deriving DecidableEq

/-- headerBuilder: renders state.data.fields[column].name as the cell text and
attaches a SortIndicator exactly when sortBy equals the column.  The fallback
field stands for the out-of-range JS indexing that the grid never produces. -/
def headerBuilder (showHeader : Bool) (s : State) (rowIndex columnIndex : Nat) :
    HeaderCell :=
  let column := (getCellRef showHeader rowIndex columnIndex).column
  let col := s.data.fields.getD column default
  let sorting := s.sortBy == some column
  { text := col.name
    indicator := if sorting then some s.sortDirection else none }

/-- getTableCellBuilder: the builder bound to the column, or the generic
fallback when the renderer has no entry there. -/
def getTableCellBuilder (renderer : List ColumnRenderInfo) (column : Nat) :
    TableCellBuilder :=
  match renderer.get? column with
  | some r => r.builder
  | none => simpleCellBuilder

/-- getColumnWidth: reads the width the renderer recorded for the column. -/
def getColumnWidth (renderer : List ColumnRenderInfo) (index : Nat) : ℚ :=
  (renderer.getD index default).width

/-- dataChanged in componentDidUpdate: the data prop reference changed. -/
def dataChangedB (prevProps props : Props) : Bool :=
  props.dataId != prevProps.dataId

/-- configsChanged in componentDidUpdate: showHeader, fixedColumns or
fixedHeader changed. -/
def configsChangedB (prevProps props : Props) : Bool :=
  (props.showHeader != prevProps.showHeader) ||
  (props.fixedColumns != prevProps.fixedColumns) ||
  (props.fixedHeader != prevProps.fixedHeader)

/-- The styles prop reference changed. -/
def stylesChangedB (prevProps props : Props) : Bool :=
  props.stylesId != prevProps.stylesId

/-- The condition of the third componentDidUpdate block: data reference or
sort state changed. -/
def resortB (prevProps : Props) (prevState : State) (t : Table) : Bool :=
  dataChangedB prevProps t.props ||
  (t.state.sortBy != prevState.sortBy) ||
  (t.state.sortDirection != prevState.sortDirection)

/-- componentDidUpdate: clear the measurer on data or config change, rebuild
the renderer on data or styles change (a throw from initColumns propagates),
and on data or sort change set scrollToTop and re-sort the displayed data via
the external sortDataFrame, passed in as sortFn. -/
def componentDidUpdate (engine : RegexEngine)
    (sortFn : DataFrame → Option Nat → Bool → DataFrame)
    (prevProps : Props) (prevState : State) (t : Table) : Except String Table :=
  match (if dataChangedB prevProps t.props || stylesChangedB prevProps t.props
         then initColumns engine t.props
         else Except.ok t.renderer) with
  | Except.error e => Except.error e
  | Except.ok r =>
    if resortB prevProps prevState t then
      Except.ok
        { t with
          measurer := if dataChangedB prevProps t.props || configsChangedB prevProps t.props
                      then [] else t.measurer
          renderer := r
          scrollToTop := true
          state := { t.state with
                     data := sortFn t.props.data t.state.sortBy
                               (t.state.sortDirection == some SortDir.desc) } }
    else
      Except.ok
        { t with
          measurer := if dataChangedB prevProps t.props || configsChangedB prevProps t.props
                      then [] else t.measurer
          renderer := r }

/-- The observable outcome of one render pass: the missing-fields placeholder,
or a grid with its scroll targets and row/column configuration. -/
inductive Rendered
  | missingFields
  | grid (scrollToRow scrollToColumn : Int)
      (columnCount rowCount fixedColumnCount fixedRowCount : Nat)
deriving DecidableEq

/-- The scroll target row of a render outcome, none for the placeholder. -/
def Rendered.scrollRow : Rendered → Option Int
  | Rendered.missingFields => none
  | Rendered.grid s _ _ _ _ _ => some s

/-- render: with no fields the placeholder is returned and the instance is
untouched; otherwise the grid is configured and the one-shot scrollToTop flag
is consumed (scrollToRow 1 when it was set, −1 otherwise). -/
def render (t : Table) : Rendered × Table :=
  if t.state.data.fields.length = 0 then (Rendered.missingFields, t)
  else
    let columnCount := t.state.data.fields.length
    let rowCount := t.state.data.length + (if t.props.showHeader then 1 else 0)
    let fixedColumnCount := min t.props.fixedColumns columnCount
    let fixedRowCount := if t.props.showHeader && t.props.fixedHeader then 1 else 0
    let scrollToRow : Int := if t.scrollToTop then 1 else -1
    let t2 := if t.scrollToTop then { t with scrollToTop := false } else t
    (Rendered.grid scrollToRow (-1) columnCount rowCount fixedColumnCount fixedRowCount,
     t2)

end GrafanaTable

namespace ThresholdsForm

/-- JS whitespace for trim and parseInt, restricted to the ASCII whitespace
characters that matter for the form input. -/
def isJsSpace (c : Char) : Bool :=
  c == ' ' || c == '\t' || c == '\n' || c == '\r'

/-- String.prototype.trim on a character list: strip whitespace from both
ends. -/
def jsTrim (s : List Char) : List Char :=
  ((s.dropWhile isJsSpace).reverse.dropWhile isJsSpace).reverse

/-- String.prototype.split with separator "," on a character list: one segment
per comma-separated run; the empty string yields one empty segment. -/
def jsSplitComma : List Char → List (List Char)
  | [] => [[]]
  | c :: rest =>
    match jsSplitComma rest with
    | [] => [[]]
    | seg :: segs => if c == ',' then [] :: seg :: segs else (c :: seg) :: segs

/-- Value of a run of decimal digit characters. -/
def digitsVal (ds : List Char) : Nat :=
  ds.foldl (fun acc c => acc * 10 + (c.toNat - 48)) 0

/-- parseInt(s, 10): skip leading whitespace, read an optional sign, then the
longest run of decimal digits; none (NaN) when that run is empty. -/
def jsParseInt10 (s : List Char) : Option Int :=
  let cs := s.dropWhile isJsSpace
  let signAndRest : Int × List Char :=
    match cs with
    | '-' :: rest2 => (-1, rest2)
    | '+' :: rest2 => (1, rest2)
    | _ => (1, cs)
  let ds := signAndRest.2.takeWhile Char.isDigit
  if ds.isEmpty then none
  else some (signAndRest.1 * (digitsVal ds : Int))

/-- handleThresholdChange: split the input on commas, parse each trimmed
segment as a base-10 integer with NaN collapsed to 0, and hand onChange the
existing colors (empty when absent) together with the parsed thresholds. -/
def handleThresholdChange (colors : Option (List String)) (value : List Char) :
    List String × List Int :=
  let splitted := jsSplitComma value
  let thresholds := splitted.map (fun seg => (jsParseInt10 (jsTrim seg)).getD 0)
  (colors.getD [], thresholds)

end ThresholdsForm

namespace GrafanaTable

/-- The style rule of the spec scenario: pattern temp_.* with alias
Temperature. -/
def demoRule : ColumnStyle :=
  { pattern := "temp_.*", aliasName := some "Temperature" }

/-- The scenario style list holding just the temperature rule. -/
def demoStyles : List ColumnStyle :=
  [demoRule]

/-- A concrete compiled regex for temp_.*: matches names beginning with
temp_ and substitutes the alias for the whole match. -/
def tempRegex : JsRegex :=
  { testMatch := fun n => n.data.take 5 == "temp_".data
    replaceWith := fun _ a => a }

/-- A concrete engine that compiles exactly the temp_.* pattern. -/
def demoEngine : RegexEngine :=
  { compile := fun p =>
      if p == "temp_.*" then Except.ok tempRegex else Except.error "unsupported" }

/-- The scenario columns temp_avg, temp_max, status. -/
def demoFields : List Field :=
  [{ name := "temp_avg", config := 0, values := [] },
   { name := "temp_max", config := 0, values := [] },
   { name := "status", config := 0, values := [] }]

/-- The scenario dataset. -/
def demoFrame : DataFrame :=
  { fields := demoFields, length := 0 }

/-- Concrete props for the scenario dataset. -/
def demoProps : Props :=
  { dataId := 0, data := demoFrame, minColumnWidth := 150, showHeader := true,
    fixedHeader := true, fixedColumns := 0, stylesId := 0, styles := demoStyles,
    width := 600, height := 300, themeId := 0 }

/-- The common per-column width of the scenario props. -/
def demoWidth : ℚ :=
  max (demoProps.width / (demoProps.data.fields.length : ℚ)) demoProps.minColumnWidth

/-- The renderer initColumns produces for the scenario props. -/
def demoInfos : List ColumnRenderInfo :=
  [{ header := "Temperature", width := demoWidth, builder := getCellBuilder 0 (some demoRule) 0 },
   { header := "Temperature", width := demoWidth, builder := getCellBuilder 0 (some demoRule) 0 },
   { header := "status", width := demoWidth, builder := getCellBuilder 0 none 0 }]

/-- Unsorted component state over the scenario dataset. -/
def demoState : State :=
  { sortBy := none, sortDirection := none, data := demoFrame }

/-- A dataset with no fields at all. -/
def emptyFrame : DataFrame :=
  { fields := [], length := 0 }

/-- Unsorted state over the empty dataset. -/
def emptyState : State :=
  { sortBy := none, sortDirection := none, data := emptyFrame }

/-- Props carrying the empty dataset. -/
def emptyProps : Props :=
  { demoProps with data := emptyFrame }

/-- A sortDataFrame stand-in that returns the frame unchanged, enough for the
coordinator witnesses, which never look inside the sorted snapshot. -/
def idSortFn : DataFrame → Option Nat → Bool → DataFrame :=
  fun d _ _ => d

/-- The component instance holding the empty dataset. -/
def emptyTable : Table :=
  { props := emptyProps, state := emptyState, renderer := [], measurer := [],
    scrollToTop := false }

/-- C1: the claim says header cells render the Style Resolver display title
(the alias-substituted text when the first matching rule has an alias).  For
the scenario dataset with the temp_.* alias rule, initColumns does compute the
display titles Temperature, Temperature, status into the renderer, but
headerBuilder renders the raw column names temp_avg and temp_max: the header
field of ColumnRenderInfo is never read by headerBuilder.  The indicator half
of the claim does hold: the sort indicator is attached exactly when sortBy
equals the column. -/
theorem headerBuilder_renders_raw_name :
    initColumns demoEngine demoProps = Except.ok demoInfos ∧
    (demoInfos.getD 0 default).header = "Temperature" ∧
    (demoInfos.getD 1 default).header = "Temperature" ∧
    (demoInfos.getD 2 default).header = "status" ∧
    (headerBuilder true demoState 0 0).text = "temp_avg" ∧
    (headerBuilder true demoState 0 1).text = "temp_max" ∧
    "temp_avg" ≠ "Temperature" ∧
    (headerBuilder true demoState 0 0).indicator = none ∧
    (headerBuilder true
      { demoState with sortBy := some 0, sortDirection := some SortDir.desc }
      0 0).indicator = some (some SortDir.desc) ∧
    (headerBuilder true
      { demoState with sortBy := some 0, sortDirection := some SortDir.desc }
      0 1).indicator = none :=
  ⟨rfl, rfl, rfl, rfl, rfl, rfl, by decide, rfl, rfl, rfl⟩

/-- C2: from any state whose sort column is not c, repeated header activations
of c step through Descending, Ascending, Unsorted and back to Descending;
activating another column d from the sorted-on-c state selects d Descending;
a state holds at most one sort column; and the cycle steps also apply to any
state already sorted on c. -/
theorem doSort_strict_cycle (s : State) (c d : Nat) (h : s.sortBy ≠ some c)
    (hd : d ≠ c) :
    doSort c s = { s with sortBy := some c, sortDirection := some SortDir.desc } ∧
    doSort c (doSort c s) =
      { s with sortBy := some c, sortDirection := some SortDir.asc } ∧
    doSort c (doSort c (doSort c s)) =
      { s with sortBy := none, sortDirection := some SortDir.asc } ∧
    (doSort c (doSort c (doSort c s))).sortBy = none ∧
    doSort c (doSort c (doSort c (doSort c s))) =
      { s with sortBy := some c, sortDirection := some SortDir.desc } ∧
    doSort d (doSort c s) =
      { s with sortBy := some d, sortDirection := some SortDir.desc } ∧
    (∀ s2 : State, ∀ e f : Nat, s2.sortBy = some e → s2.sortBy = some f → e = f) ∧
    (∀ s2 : State, s2.sortBy = some c → s2.sortDirection = some SortDir.desc →
      doSort c s2 = { s2 with sortDirection := some SortDir.asc }) ∧
    (∀ s2 : State, s2.sortBy = some c → s2.sortDirection = some SortDir.asc →
      doSort c s2 = { s2 with sortBy := none }) := by
  have hcd : ¬(c = d) := fun hh => hd hh.symm
  have step1 : doSort c s = { s with sortBy := some c, sortDirection := some SortDir.desc } := by
    simp [doSort, h]
  have step2 : doSort c { s with sortBy := some c, sortDirection := some SortDir.desc } =
      { s with sortBy := some c, sortDirection := some SortDir.asc } := by
    simp [doSort]
  have step3 : doSort c { s with sortBy := some c, sortDirection := some SortDir.asc } =
      { s with sortBy := none, sortDirection := some SortDir.asc } := by
    simp [doSort]
  have step4 : doSort c { s with sortBy := none, sortDirection := some SortDir.asc } =
      { s with sortBy := some c, sortDirection := some SortDir.desc } := by
    simp [doSort]
  have stepd : doSort d { s with sortBy := some c, sortDirection := some SortDir.desc } =
      { s with sortBy := some d, sortDirection := some SortDir.desc } := by
    simp [doSort, hcd]
  refine ⟨step1, ?_, ?_, ?_, ?_, ?_, ?_, ?_, ?_⟩
  · rw [step1, step2]
  · rw [step1, step2, step3]
  · rw [step1, step2, step3]
  · rw [step1, step2, step3, step4]
  · rw [step1, stepd]
  · intro s2 e f he hf
    rw [he] at hf
    exact Option.some.inj hf
  · intro s2 h1 h2
    simp [doSort, h1, h2]
  · intro s2 h1 h2
    simp [doSort, h1, h2]

/-- Closed instance of the C2 cycle theorem at the initial unsorted state,
activating column 0 (and column 1 as the different column). -/
theorem doSort_strict_cycle_witness :
    (emptyState.sortBy ≠ some 0 ∧ (1 : Nat) ≠ 0) ∧
    doSort 0 emptyState =
      { emptyState with sortBy := some 0, sortDirection := some SortDir.desc } :=
  ⟨⟨by decide, by decide⟩, (doSort_strict_cycle emptyState 0 1 (by decide) (by decide)).1⟩

/-- C6: getCellRef maps grid row r to data row r − 1 when the header is shown
(grid row 0, the header, to data row −1) and to r unchanged when the header is
hidden; the column index passes through unchanged in both cases. -/
theorem getCellRef_coordinate_mapping (r c : Nat) :
    (getCellRef true r c).row = (r : Int) - 1 ∧
    (getCellRef false r c).row = (r : Int) ∧
    (getCellRef true 0 c).row = -1 ∧
    (∀ sh : Bool, (getCellRef sh r c).column = c) := by
  refine ⟨?_, ?_, ?_, fun sh => ?_⟩
  · simp [getCellRef, sub_eq_add_neg]
  · simp [getCellRef]
  · simp [getCellRef]
  · cases sh <;> rfl

/-- C8: a dataset with no fields renders exactly the missing-fields
placeholder, leaving the whole instance (measurement cache, scroll flag,
state) untouched, and initColumns does no layout work, producing the empty
renderer. -/
theorem missingFields_placeholder (t : Table) (engine : RegexEngine) (props : Props)
    (h : t.state.data.fields = []) (hp : props.data.fields = []) :
    render t = (Rendered.missingFields, t) ∧
    initColumns engine props = Except.ok [] := by
  constructor
  · simp [render, h]
  · simp [initColumns, hp]

/-- Characterization of every successful componentDidUpdate pass: props and
sort state pass through; the measurer is wiped exactly on data or config
change; the renderer is rebuilt by initColumns exactly on data or styles
change; scrollToTop is set exactly when the re-sort condition fires, which
also replaces the displayed data with the freshly sorted snapshot. -/
theorem componentDidUpdate_ok (engine : RegexEngine)
    (sortFn : DataFrame → Option Nat → Bool → DataFrame)
    (prevProps : Props) (prevState : State) (t t2 : Table)
    (h : componentDidUpdate engine sortFn prevProps prevState t = Except.ok t2) :
    t2.props = t.props ∧
    t2.state.sortBy = t.state.sortBy ∧
    t2.state.sortDirection = t.state.sortDirection ∧
    t2.measurer = (if dataChangedB prevProps t.props || configsChangedB prevProps t.props
                   then [] else t.measurer) ∧
    (if dataChangedB prevProps t.props || stylesChangedB prevProps t.props
     then initColumns engine t.props = Except.ok t2.renderer
     else t2.renderer = t.renderer) ∧
    t2.scrollToTop = (if resortB prevProps prevState t then true else t.scrollToTop) ∧
    t2.state.data = (if resortB prevProps prevState t
                     then sortFn t.props.data t.state.sortBy
                            (t.state.sortDirection == some SortDir.desc)
                     else t.state.data) := by
  unfold componentDidUpdate at h
  split at h
  · exact Except.noConfusion h
  · rename_i r hr
    split at h
    · rename_i hres
      simp only [Except.ok.injEq] at h
      subst h
      refine ⟨rfl, rfl, rfl, rfl, ?_, by simp [hres], by simp [hres]⟩
      by_cases hreb : (dataChangedB prevProps t.props || stylesChangedB prevProps t.props) = true
      · rw [if_pos hreb] at hr ⊢
        exact hr
      · rw [if_neg hreb] at hr ⊢
        simp only [Except.ok.injEq] at hr
        exact hr.symm
    · rename_i hres
      simp only [Except.ok.injEq] at h
      subst h
      refine ⟨rfl, rfl, rfl, rfl, ?_, by simp [hres], by simp [hres]⟩
      by_cases hreb : (dataChangedB prevProps t.props || stylesChangedB prevProps t.props) = true
      · rw [if_pos hreb] at hr ⊢
        exact hr
      · rw [if_neg hreb] at hr ⊢
        simp only [Except.ok.injEq] at hr
        exact hr.symm

/-- C3: a successful update clears the measurement cache wholesale exactly
when the data reference or one of showHeader, fixedColumns, fixedHeader
changed; a styles-reference-only change rebuilds the renderer through
initColumns while every cached measurement entry survives. -/
theorem measurementCache_invalidation (engine : RegexEngine)
    (sortFn : DataFrame → Option Nat → Bool → DataFrame)
    (prevProps : Props) (prevState : State) (t t2 : Table)
    (h : componentDidUpdate engine sortFn prevProps prevState t = Except.ok t2) :
    t2.measurer = (if dataChangedB prevProps t.props || configsChangedB prevProps t.props
                   then [] else t.measurer) ∧
    (dataChangedB prevProps t.props = false → configsChangedB prevProps t.props = false →
     stylesChangedB prevProps t.props = true →
     t2.measurer = t.measurer ∧ initColumns engine t.props = Except.ok t2.renderer) := by
  obtain ⟨-, -, -, hm, hr, -, -⟩ :=
    componentDidUpdate_ok engine sortFn prevProps prevState t t2 h
  refine ⟨hm, fun h1 h2 h3 => ⟨?_, ?_⟩⟩
  · rw [hm, h1, h2]
    rfl
  · rw [h1, h3] at hr
    simpa using hr

/-- The table instance of the styles-only update scenario: same data, sort
and config as the previous props, a fresh styles reference, and a non-empty
measurement cache. -/
def stylesOnlyTable : Table :=
  { props := { emptyProps with stylesId := 1 }, state := emptyState,
    renderer := [], measurer := [((0, 0), 30)], scrollToTop := false }

/-- Closed instance of the C3 theorem on a styles-reference-only update with
a non-empty cache. -/
theorem measurementCache_invalidation_witness :
    componentDidUpdate demoEngine idSortFn emptyProps emptyState stylesOnlyTable =
      Except.ok stylesOnlyTable ∧
    (stylesOnlyTable.measurer =
      (if dataChangedB emptyProps stylesOnlyTable.props ||
          configsChangedB emptyProps stylesOnlyTable.props
       then [] else stylesOnlyTable.measurer) ∧
     (dataChangedB emptyProps stylesOnlyTable.props = false →
      configsChangedB emptyProps stylesOnlyTable.props = false →
      stylesChangedB emptyProps stylesOnlyTable.props = true →
      stylesOnlyTable.measurer = stylesOnlyTable.measurer ∧
      initColumns demoEngine stylesOnlyTable.props =
        Except.ok stylesOnlyTable.renderer)) :=
  ⟨rfl, measurementCache_invalidation demoEngine idSortFn emptyProps emptyState
     stylesOnlyTable stylesOnlyTable rfl⟩

/-- C9 (amended): when the data reference, the styles reference, the sort
state and also showHeader, fixedColumns and fixedHeader are all unchanged, the
update triggers none of the four coordinator actions: the instance comes back
identical — no cache clear, no renderer rebuild, no re-sort, no scroll
request. -/
theorem unchanged_update_is_noop (engine : RegexEngine)
    (sortFn : DataFrame → Option Nat → Bool → DataFrame)
    (prevProps : Props) (prevState : State) (t : Table)
    (h1 : t.props.dataId = prevProps.dataId)
    (h2 : t.props.stylesId = prevProps.stylesId)
    (h3 : t.props.showHeader = prevProps.showHeader)
    (h4 : t.props.fixedColumns = prevProps.fixedColumns)
    (h5 : t.props.fixedHeader = prevProps.fixedHeader)
    (h6 : t.state.sortBy = prevState.sortBy)
    (h7 : t.state.sortDirection = prevState.sortDirection) :
    componentDidUpdate engine sortFn prevProps prevState t = Except.ok t := by
  have hd : dataChangedB prevProps t.props = false := by
    simp [dataChangedB, h1]
  have hs : stylesChangedB prevProps t.props = false := by
    simp [stylesChangedB, h2]
  have hc : configsChangedB prevProps t.props = false := by
    simp [configsChangedB, h3, h4, h5]
  have hres : resortB prevProps prevState t = false := by
    simp [resortB, hd, h6, h7]
  unfold componentDidUpdate
  rw [hd, hs, hc, hres]
  simp

/-- Closed instance of the C9 amended theorem: a props-and-state-identical
update returns the instance unchanged. -/
theorem unchanged_update_is_noop_witness :
    (stylesOnlyTable.props.dataId = stylesOnlyTable.props.dataId ∧
     stylesOnlyTable.state.sortBy = emptyState.sortBy) ∧
    componentDidUpdate demoEngine idSortFn stylesOnlyTable.props emptyState
      stylesOnlyTable = Except.ok stylesOnlyTable :=
  ⟨⟨rfl, rfl⟩,
   unchanged_update_is_noop demoEngine idSortFn stylesOnlyTable.props emptyState
     stylesOnlyTable rfl rfl rfl rfl rfl rfl rfl⟩

/-- The table instance of the header-visibility-only update scenario: same
data reference, styles reference and sort state as before, but showHeader
flipped, with a non-empty measurement cache. -/
def headerOnlyTable : Table :=
  { props := { emptyProps with showHeader := false }, state := emptyState,
    renderer := [], measurer := [((0, 0), 30)], scrollToTop := false }

/-- C9 counterexample: the dataset reference, the styles reference and the
sort state are all unchanged, yet the update clears the measurement cache,
because showHeader changed — the claim omits the config props from its
precondition. -/
theorem unchanged_data_styles_sort_still_acts :
    headerOnlyTable.props.dataId = emptyProps.dataId ∧
    headerOnlyTable.props.stylesId = emptyProps.stylesId ∧
    headerOnlyTable.state.sortBy = emptyState.sortBy ∧
    headerOnlyTable.state.sortDirection = emptyState.sortDirection ∧
    componentDidUpdate demoEngine idSortFn emptyProps emptyState headerOnlyTable =
      Except.ok { headerOnlyTable with measurer := [] } ∧
    headerOnlyTable.measurer ≠ [] :=
  ⟨rfl, rfl, rfl, rfl, rfl, by decide⟩

/-- Closed instance of the C8 theorem on the concrete empty dataset. -/
theorem missingFields_placeholder_witness :
    (emptyTable.state.data.fields = [] ∧ emptyProps.data.fields = []) ∧
    (render emptyTable = (Rendered.missingFields, emptyTable) ∧
     initColumns demoEngine emptyProps = Except.ok []) :=
  ⟨⟨rfl, rfl⟩, missingFields_placeholder emptyTable demoEngine emptyProps rfl rfl⟩

/-- A render pass over a dataset with fields reports scroll target 1 when the
scrollToTop flag is set and −1 otherwise, and returns the instance with the
flag cleared. -/
theorem render_consumes (t : Table) (hne : t.state.data.fields.length ≠ 0) :
    (render t).1.scrollRow = some (if t.scrollToTop then (1 : Int) else -1) ∧
    (render t).2 = { t with scrollToTop := false } := by
  obtain ⟨p, s, r, m, st⟩ := t
  cases st <;> simp [render, Rendered.scrollRow, hne]

/-- C4 (amended): the scroll-to-top flag is set exactly when the
re-sort/refresh condition fires (data reference change or sort-state change)
and left alone otherwise; the next render pass with data present scrolls the
viewport to grid row 1 — the first data row when the header is shown — when
the flag is set, clears the flag, and a further render without a new trigger
scrolls nowhere (target −1). -/
theorem scrollToTop_one_shot (engine : RegexEngine)
    (sortFn : DataFrame → Option Nat → Bool → DataFrame)
    (prevProps : Props) (prevState : State) (t t2 : Table)
    (h : componentDidUpdate engine sortFn prevProps prevState t = Except.ok t2)
    (hne : t2.state.data.fields.length ≠ 0) :
    t2.scrollToTop = (if resortB prevProps prevState t then true else t.scrollToTop) ∧
    (render t2).1.scrollRow = some (if t2.scrollToTop then (1 : Int) else -1) ∧
    (render t2).2.scrollToTop = false ∧
    ((render (render t2).2).1).scrollRow = some (-1) ∧
    (∀ c : Nat, (getCellRef true 1 c).row = 0) := by
  obtain ⟨-, -, -, -, -, hst, -⟩ :=
    componentDidUpdate_ok engine sortFn prevProps prevState t t2 h
  obtain ⟨hrow, hcons⟩ := render_consumes t2 hne
  have hne2 : ({ t2 with scrollToTop := false } : Table).state.data.fields.length ≠ 0 := hne
  obtain ⟨hrow2, -⟩ := render_consumes { t2 with scrollToTop := false } hne2
  refine ⟨hst, hrow, ?_, ?_, fun c => by simp [getCellRef]⟩
  · rw [hcons]
  · rw [hcons, hrow2]
    simp

/-- The table instance right after a header click set the sort state to
column 1 descending, with props otherwise unchanged. -/
def sortClickTable : Table :=
  { props := demoProps,
    state := { demoState with sortBy := some 1, sortDirection := some SortDir.desc },
    renderer := [], measurer := [], scrollToTop := false }

/-- The same instance after componentDidUpdate: only the scroll flag is set
(the identity sort keeps the data unchanged). -/
def sortClickResult : Table :=
  { sortClickTable with scrollToTop := true }

/-- Closed instance of the C4 amended theorem on a sort-state change followed
by two render passes. -/
theorem scrollToTop_one_shot_witness :
    (componentDidUpdate demoEngine idSortFn demoProps demoState sortClickTable =
       Except.ok sortClickResult ∧
     sortClickResult.state.data.fields.length ≠ 0) ∧
    (sortClickResult.scrollToTop =
       (if resortB demoProps demoState sortClickTable then true
        else sortClickTable.scrollToTop) ∧
     (render sortClickResult).1.scrollRow =
       some (if sortClickResult.scrollToTop then (1 : Int) else -1) ∧
     (render sortClickResult).2.scrollToTop = false ∧
     ((render (render sortClickResult).2).1).scrollRow = some (-1) ∧
     (∀ c : Nat, (getCellRef true 1 c).row = 0)) :=
  ⟨⟨rfl, by decide⟩,
   scrollToTop_one_shot demoEngine idSortFn demoProps demoState sortClickTable
     sortClickResult rfl (by decide)⟩

/-- A headerless instance, two data rows, with the scroll flag set. -/
def noHeaderTable : Table :=
  { props := { demoProps with showHeader := false },
    state := { sortBy := none, sortDirection := none,
               data := { fields := demoFields, length := 2 } },
    renderer := [], measurer := [], scrollToTop := true }

/-- C4 counterexample: with the header hidden and the flag set, the render
pass scrolls to grid row 1, which maps to data row 1 — not to the first data
row, which sits at grid row 0 when no header is shown. -/
theorem scroll_target_not_first_data_row :
    (render noHeaderTable).1.scrollRow = some 1 ∧
    noHeaderTable.props.showHeader = false ∧
    (getCellRef false 1 0).row = 1 ∧
    (getCellRef false 0 0).row = 0 ∧
    (getCellRef false 1 0).row ≠ (getCellRef false 0 0).row :=
  ⟨rfl, rfl, rfl, rfl, by decide⟩

/-- A compiled regex for a well-formed literal pattern: matches exactly the
pattern text and substitutes the alias for the whole match. -/
def plainRegex (p : String) : JsRegex :=
  { testMatch := fun n => n == p, replaceWith := fun _ a => a }

/-- An engine for which the pattern left-bracket is malformed (compilation
throws, as stringToJsRegex does on an invalid expression) and every other
pattern compiles to its literal matcher. -/
def badEngine : RegexEngine :=
  { compile := fun p =>
      if p == "[" then Except.error "bad pattern" else Except.ok (plainRegex p) }

/-- The malformed rule. -/
def badRule : ColumnStyle := { pattern := "[", aliasName := none }

/-- A later rule that would match the column x. -/
def goodRule : ColumnStyle := { pattern := "x", aliasName := some "X" }

/-- A style list whose first rule is malformed and whose second matches. -/
def badStyles : List ColumnStyle := [badRule, goodRule]

/-- Props over a single column x with the malformed style list. -/
def xProps : Props :=
  { demoProps with
    data := { fields := [{ name := "x", config := 0, values := [] }], length := 0 },
    styles := badStyles }

/-- C5 counterexample: with a malformed first pattern, style resolution for
column x fails with the compile error instead of skipping the rule — even
though the following rule matches and on its own resolves the column — and
initColumns propagates the failure instead of rendering. -/
theorem malformed_pattern_crashes_resolution :
    resolveStyle badEngine "x" badStyles = Except.error "bad pattern" ∧
    resolveStyle badEngine "x" [goodRule] = Except.ok ("X", some goodRule) ∧
    initColumns badEngine xProps = Except.error "bad pattern" :=
  ⟨rfl, rfl, rfl⟩

/-- C5 (amended): a rule whose pattern fails to compile makes style
resolution fail with that compile error — the rule is not treated as a
non-match and the rules after it are never evaluated — while well-formed
non-matching rules before it are still walked in order up to the failure. -/
theorem resolveStyle_error_propagates (engine : RegexEngine) (name : String)
    (s : ColumnStyle) (rest : List ColumnStyle) (e : String)
    (h : engine.compile s.pattern = Except.error e) :
    resolveStyle engine name (s :: rest) = Except.error e ∧
    (∀ s2 : ColumnStyle, ∀ r : JsRegex, engine.compile s2.pattern = Except.ok r →
      r.testMatch name = false →
      resolveStyle engine name (s2 :: s :: rest) = Except.error e) := by
  constructor
  · simp [resolveStyle, h]
  · intro s2 r h2 hm
    simp [resolveStyle, h2, hm, h]

/-- Closed instance of the C5 amended theorem on the malformed bracket
pattern preceded by a non-matching well-formed rule. -/
theorem resolveStyle_error_propagates_witness :
    badEngine.compile badRule.pattern = Except.error "bad pattern" ∧
    (resolveStyle badEngine "zz" (badRule :: [goodRule]) = Except.error "bad pattern" ∧
     (badEngine.compile goodRule.pattern = Except.ok (plainRegex "x") →
      (plainRegex "x").testMatch "zz" = false →
      resolveStyle badEngine "zz" (goodRule :: badRule :: [goodRule]) =
        Except.error "bad pattern")) :=
  ⟨rfl, (resolveStyle_error_propagates badEngine "zz" badRule [goodRule] "bad pattern" rfl).1,
   fun h2 hm =>
     (resolveStyle_error_propagates badEngine "zz" badRule [goodRule] "bad pattern" rfl).2
       goodRule (plainRegex "x") h2 hm⟩

/-- Every successful buildColumns run yields one entry per field, each
carrying the common columnWidth. -/
theorem buildColumns_ok_width (engine : RegexEngine) (styles : List ColumnStyle)
    (themeId : Nat) (w : ℚ) :
    ∀ (l : List Field) (r : List ColumnRenderInfo),
      buildColumns engine styles themeId w l = Except.ok r →
      r.length = l.length ∧ ∀ x ∈ r, x.width = w := by
  intro l
  induction l with
  | nil =>
    intro r h
    simp only [buildColumns, Except.ok.injEq] at h
    subst h
    simp
  | cons col rest ih =>
    intro r h
    simp only [buildColumns] at h
    split at h
    · exact Except.noConfusion h
    · split at h
      · exact Except.noConfusion h
      · rename_i rs hrs tail htail
        simp only [Except.ok.injEq] at h
        subst h
        obtain ⟨hl, hw⟩ := ih tail htail
        refine ⟨by simp [hl], ?_⟩
        intro x hx
        rcases List.mem_cons.mp hx with hx1 | hx2
        · rw [hx1]
        · exact hw x hx2

/-- C7: for a non-empty dataset every column initColumns lays out — and the
width getColumnWidth then reports for it — equals max(width / columnCount,
minColumnWidth); there is exactly one entry per column and no per-column
override. -/
theorem column_width_policy (engine : RegexEngine) (props : Props)
    (infos : List ColumnRenderInfo)
    (h0 : props.data.fields.length ≠ 0)
    (h : initColumns engine props = Except.ok infos) :
    infos.length = props.data.fields.length ∧
    (∀ i : Nat, i < infos.length →
      (infos.getD i default).width =
        max (props.width / (props.data.fields.length : ℚ)) props.minColumnWidth ∧
      getColumnWidth infos i =
        max (props.width / (props.data.fields.length : ℚ)) props.minColumnWidth) := by
  unfold initColumns at h
  rw [if_neg h0] at h
  obtain ⟨hl, hw⟩ :=
    buildColumns_ok_width engine props.styles props.themeId _ props.data.fields infos h
  refine ⟨hl, fun i hi => ?_⟩
  have hmem : infos.getD i default ∈ infos := by
    rw [List.getD_eq_getElem infos default hi]
    exact List.getElem_mem hi
  have hx := hw _ hmem
  exact ⟨hx, hx⟩

/-- Closed instance of the C7 theorem on the scenario dataset (three columns,
viewport 600, minimum 150). -/
theorem column_width_policy_witness :
    (demoProps.data.fields.length ≠ 0 ∧
     initColumns demoEngine demoProps = Except.ok demoInfos) ∧
    (demoInfos.length = demoProps.data.fields.length ∧
     (∀ i : Nat, i < demoInfos.length →
       (demoInfos.getD i default).width =
         max (demoProps.width / (demoProps.data.fields.length : ℚ))
           demoProps.minColumnWidth ∧
       getColumnWidth demoInfos i =
         max (demoProps.width / (demoProps.data.fields.length : ℚ))
           demoProps.minColumnWidth)) :=
  ⟨⟨by decide, rfl⟩, column_width_policy demoEngine demoProps demoInfos (by decide) rfl⟩

end GrafanaTable

namespace ThresholdsForm

/-- C10: the thresholds handed to onChange have exactly one entry per
comma-separated segment of the input, the i-th entry being the base-10 parse
of the trimmed i-th segment with a failed parse (NaN) collapsed to 0, and the
colors list is passed through unchanged, empty when absent. -/
theorem handleThresholdChange_per_segment (colors : Option (List String))
    (value : List Char) :
    (handleThresholdChange colors value).2.length = (jsSplitComma value).length ∧
    (∀ i : Nat, (handleThresholdChange colors value).2.getD i 0 =
      (jsParseInt10 (jsTrim ((jsSplitComma value).getD i []))).getD 0) ∧
    (handleThresholdChange colors value).1 = colors.getD [] := by
  refine ⟨by simp [handleThresholdChange], fun i => ?_, by simp [handleThresholdChange]⟩
  have h0 : ((jsParseInt10 (jsTrim ([] : List Char))).getD 0 : Int) = 0 := rfl
  calc (handleThresholdChange colors value).2.getD i 0
      = ((jsSplitComma value).map (fun seg => (jsParseInt10 (jsTrim seg)).getD 0)).getD i
          ((jsParseInt10 (jsTrim ([] : List Char))).getD 0) := by rw [h0]; rfl
    _ = (jsParseInt10 (jsTrim ((jsSplitComma value).getD i []))).getD 0 :=
        List.getD_map (jsSplitComma value) [] (fun seg => (jsParseInt10 (jsTrim seg)).getD 0)

end ThresholdsForm
